import Mathlib

/-!
Verification of the redscript diagnostic subsystem (core/src/error.rs).

The Rust module is embedded shallowly: `Pos`, `std::io::Error` and
`std::fmt::Error` are external collaborator types modelled as opaque value
types; the `Error` enum and the `FunctionResolutionError` tuple struct are
translated to an inductive type and a structure; every factory constructor
of `impl Error`, the two `From` conversions and the four
`FunctionResolutionError` builders become Lean functions following the Rust
bodies line by line (Rust `format!` templates become string concatenations,
`Display` generic parameters become `String` arguments, `usize` becomes
`Nat`).
-/

namespace Redscript

/-- Source position (crate::ast::Pos), an external opaque value consumed,
never produced, by this subsystem; modelled as a wrapped number. -/
structure Pos where
  val : Nat
deriving DecidableEq, Repr

/-- The kind tag of a lower-level host I/O failure (std::io::ErrorKind);
only the kind this module constructs is distinguished. -/
inductive IoErrorKind where
  | unexpectedEof
  | otherKind
deriving DecidableEq, Repr

/-- A lower-level host I/O failure value (std::io::Error), carrying the
kind and the payload message passed to io::Error::new. -/
structure IoFailure where
  kind : IoErrorKind
  message : String
deriving DecidableEq, Repr

/-- A text-formatting failure (std::fmt::Error), a unit-like value. -/
inductive FmtError where
  | mk
deriving DecidableEq, Repr

/-- One overload-candidate rejection reason:
pub struct FunctionResolutionError(String). It stores only the final
rendered text. -/
structure FunctionResolutionError where
  text : String
deriving DecidableEq, Repr

/-- The diagnostic taxonomy: pub enum Error of core/src/error.rs, with the
payload of each variant exactly as in the source. -/
inductive Error where
  | IoError (err : IoFailure)
  | DecompileError (msg : String)
  | SyntaxError (msg : String) (pos : Pos)
  | CompileError (msg : String) (pos : Pos)
  | TypeError (msg : String) (pos : Pos)
  | ResolutionError (msg : String) (pos : Pos)
  | PoolError (msg : String)
  | FormatError (err : FmtError)
  | MultipleErrors (positions : List Pos)
deriving DecidableEq, Repr

/-- The category tag of a diagnostic: one value per variant of the enum. -/
inductive Category where
  | ioErr
  | decompileErr
  | syntaxErr
  | compileErr
  | typeErr
  | resolutionErr
  | poolErr
  | formatErr
  | multipleErr
deriving DecidableEq, Repr

namespace Error

/-- The category tag of a diagnostic value. -/
def category : Error → Category
  | .IoError _ => .ioErr
  | .DecompileError _ => .decompileErr
  | .SyntaxError _ _ => .syntaxErr
  | .CompileError _ _ => .compileErr
  | .TypeError _ _ => .typeErr
  | .ResolutionError _ _ => .resolutionErr
  | .PoolError _ => .poolErr
  | .FormatError _ => .formatErr
  | .MultipleErrors _ => .multipleErr

/-- Observer: the message strings carried directly by a diagnostic value
(not counting text nested inside a wrapped host failure). -/
def msgList : Error → List String
  | .IoError _ => []
  | .DecompileError m => [m]
  | .SyntaxError m _ => [m]
  | .CompileError m _ => [m]
  | .TypeError m _ => [m]
  | .ResolutionError m _ => [m]
  | .PoolError m => [m]
  | .FormatError _ => []
  | .MultipleErrors _ => []

/-- Observer: the positions carried by a diagnostic value. -/
def posList : Error → List Pos
  | .IoError _ => []
  | .DecompileError _ => []
  | .SyntaxError _ p => [p]
  | .CompileError _ p => [p]
  | .TypeError _ p => [p]
  | .ResolutionError _ p => [p]
  | .PoolError _ => []
  | .FormatError _ => []
  | .MultipleErrors ps => ps

/-- Observer: recover the wrapped host I/O failure, when the diagnostic is
of the IO category. -/
def unwrapIoError : Error → Option IoFailure
  | .IoError e => some e
  | _ => none

/-- Observer: recover the wrapped formatting failure, when the diagnostic
is of the Format category. -/
def unwrapFmtError : Error → Option FmtError
  | .FormatError e => some e
  | _ => none

/-- pub fn eof(hint: String) -> Error -/
def eof (hint : String) : Error :=
  Error.IoError ⟨IoErrorKind.unexpectedEof, hint⟩

/-- pub fn function_not_found(fun_name, pos) -> Error -/
def function_not_found (fun_name : String) (pos : Pos) : Error :=
  Error.CompileError ("Function " ++ fun_name ++ " not found") pos

/-- pub fn member_not_found(member, context, pos) -> Error -/
def member_not_found (member : String) (context : String) (pos : Pos) : Error :=
  Error.CompileError ("Member " ++ member ++ " not found on " ++ context) pos

/-- pub fn class_not_found(class_name, pos) -> Error -/
def class_not_found (class_name : String) (pos : Pos) : Error :=
  Error.CompileError ("Can\x27t find class " ++ class_name) pos

/-- pub fn class_is_abstract(class_name, pos) -> Error -/
def class_is_abstract (class_name : String) (pos : Pos) : Error :=
  Error.CompileError ("Cannot instantiate abstract class " ++ class_name) pos

/-- pub fn unresolved_reference(name, pos) -> Error -/
def unresolved_reference (name : String) (pos : Pos) : Error :=
  Error.CompileError ("Unresolved reference " ++ name) pos

/-- pub fn unresolved_type(name, pos) -> Error -/
def unresolved_type (name : String) (pos : Pos) : Error :=
  Error.CompileError ("Unresolved type " ++ name) pos

/-- pub fn unresolved_import(import, pos) -> Error -/
def unresolved_import (imp : String) (pos : Pos) : Error :=
  Error.CompileError ("Unresolved import " ++ imp) pos

/-- pub fn unresolved_module(import, pos) -> Error -/
def unresolved_module (imp : String) (pos : Pos) : Error :=
  Error.CompileError ("Module " ++ imp ++ " has no members or does not exist") pos

/-- pub fn invalid_annotation_args(pos) -> Error -/
def invalid_annotation_args (pos : Pos) : Error :=
  Error.CompileError "Invalid arguments for annotation" pos

/-- pub fn type_annotation_required(pos) -> Error -/
def type_annotation_required (pos : Pos) : Error :=
  Error.CompileError "Type annotation required" pos

/-- pub fn invalid_context(type_, pos) -> Error -/
def invalid_context (type_ : String) (pos : Pos) : Error :=
  Error.CompileError (type_ ++ " doesn\x27t have members") pos

/-- pub fn invalid_op(type_, op, pos) -> Error -/
def invalid_op (type_ : String) (op : String) (pos : Pos) : Error :=
  Error.CompileError (op ++ " is not supported on " ++ type_) pos

/-- pub fn invalid_arg_count(name, expected, pos) -> Error -/
def invalid_arg_count (name : String) (expected : Nat) (pos : Pos) : Error :=
  Error.CompileError ("Expected " ++ toString expected ++ " parameters for " ++ name) pos

/-- pub fn void_cannot_be_used(pos) -> Error -/
def void_cannot_be_used (pos : Pos) : Error :=
  Error.CompileError "Void value cannot be used" pos

/-- pub fn value_expected(found, pos) -> Error -/
def value_expected (found : String) (pos : Pos) : Error :=
  Error.CompileError ("Expected a value, found " ++ found) pos

/-- pub fn return_type_mismatch(type_, pos) -> Error -/
def return_type_mismatch (type_ : String) (pos : Pos) : Error :=
  Error.CompileError ("Function should return " ++ type_) pos

/-- pub fn type_error(from, to, pos) -> Error -/
def type_error (from_ : String) (to_ : String) (pos : Pos) : Error :=
  Error.TypeError ("Can\x27t coerce " ++ from_ ++ " to " ++ to_) pos

/-- pub fn no_matching_overload(name, errors, pos) -> Error: the overload
aggregation algorithm, following the Rust body: take max_errors = 10
candidates from the ordered slice, fold each into the accumulator behind a
line break and one leading space, append the truncation marker when the
full slice is longer than max_errors, then tag the header plus detail as a
ResolutionError at the supplied position. -/
def no_matching_overload (name : String) (errors : List FunctionResolutionError) (pos : Pos) : Error :=
  let max_errors := 10
  let messages := (errors.take max_errors).foldl (fun acc s => acc ++ "\n " ++ s.text) ""
  let detail := if errors.length > max_errors then messages ++ "\n...and more" else messages
  Error.ResolutionError ("Arguments passed to " ++ name ++ " do not match any of the overloads:" ++ detail) pos

/-- pub fn invalid_intrinsic(name, type_, pos) -> Error -/
def invalid_intrinsic (name : String) (type_ : String) (pos : Pos) : Error :=
  Error.CompileError ("Invalid intrinsic " ++ name ++ " call: unexpected " ++ type_) pos

/-- pub fn expected_static_method(name, pos) -> Error -/
def expected_static_method (name : String) (pos : Pos) : Error :=
  Error.CompileError ("Method " ++ name ++ " is not static") pos

/-- pub fn expected_non_static_method(name, pos) -> Error -/
def expected_non_static_method (name : String) (pos : Pos) : Error :=
  Error.CompileError ("Method " ++ name ++ " is static") pos

/-- pub fn no_this_in_static_context(pos) -> Error -/
def no_this_in_static_context (pos : Pos) : Error :=
  Error.CompileError "No \x27this\x27 in static context" pos

/-- pub fn unsupported(name, pos) -> Error -/
def unsupported (name : String) (pos : Pos) : Error :=
  Error.CompileError (name ++ " is unsupported") pos

/-- pub fn class_redefinition(pos) -> Error -/
def class_redefinition (pos : Pos) : Error :=
  Error.CompileError "Class with this name is already defined elsewhere" pos

/-- impl From of io::Error for Error -/
def fromIoError (err : IoFailure) : Error :=
  Error.IoError err

/-- impl From of fmt::Error for Error -/
def fromFmtError (err : FmtError) : Error :=
  Error.FormatError err

end Error

namespace FunctionResolutionError

/-- pub fn parameter_mismatch(cause, index) -> FunctionResolutionError -/
def parameter_mismatch (cause : String) (index : Nat) : FunctionResolutionError :=
  ⟨"Invalid parameter at position " ++ toString index ++ ": " ++ cause⟩

/-- pub fn return_mismatch(expected, given) -> FunctionResolutionError -/
def return_mismatch (expected : String) (given : String) : FunctionResolutionError :=
  ⟨"Return type " ++ given ++ " does not match expected " ++ expected⟩

/-- pub fn too_many_args(expected, got) -> FunctionResolutionError -/
def too_many_args (expected : Nat) (got : Nat) : FunctionResolutionError :=
  ⟨"Too many arguments, expected " ++ toString expected ++ " but got " ++ toString got⟩

/-- pub fn invalid_arg_count(received, min, max) -> FunctionResolutionError -/
def invalid_arg_count (received : Nat) (mn : Nat) (mx : Nat) : FunctionResolutionError :=
  ⟨"Expected " ++ toString mn ++ "-" ++ toString mx ++ " parameters, given " ++ toString received⟩

end FunctionResolutionError

/-- Specification-side rendering of a block of candidate texts: each text
preceded by a line break and one leading space, concatenated in order. -/
def renderBlock : List FunctionResolutionError → String
  | [] => ""
  | e :: es => "\n " ++ e.text ++ renderBlock es

/-- Message and position multiplicities carried directly by a diagnostic. -/
def msgPosCounts (e : Error) : Nat × Nat :=
  (e.msgList.length, e.posList.length)

theorem string_empty_append (s : String) : "" ++ s = s :=
  rfl

theorem foldl_append_renderBlock (l : List FunctionResolutionError) (acc : String) :
    l.foldl (fun a s => a ++ "\n " ++ s.text) acc = acc ++ renderBlock l := by
  induction l generalizing acc with
  | nil => simp [renderBlock, String.append_empty]
  | cons e es ih =>
      rw [List.foldl_cons, ih]
      simp only [renderBlock, String.append_assoc]

/-- C1: for every ordered candidate list, target name and call-site
position, the aggregator yields a Resolution-category diagnostic at the
supplied position whose message is the header followed by the first
min(N, 10) candidate texts in original order, each preceded by a line
break and one leading space, with the marker appended exactly when
N > 10. -/
theorem c1_no_matching_overload_spec
    (errors : List FunctionResolutionError) (name : String) (pos : Pos) :
    Error.no_matching_overload name errors pos =
      Error.ResolutionError
        ("Arguments passed to " ++ name ++ " do not match any of the overloads:" ++
          renderBlock (errors.take 10) ++
          (if errors.length > 10 then "\n...and more" else "")) pos ∧
    (errors.take 10).length = min errors.length 10 := by
  constructor
  · simp only [Error.no_matching_overload]
    rw [foldl_append_renderBlock]
    by_cases h : errors.length > 10
    · simp only [if_pos h, string_empty_append, String.append_assoc]
    · simp only [if_neg h, string_empty_append, String.append_empty, String.append_assoc]
  · simp [List.length_take, Nat.min_comm]

/-- C5: aggregating the empty candidate list with name foo yields exactly
the header, with no block and no truncation marker. -/
theorem c5_empty_aggregation (p : Pos) :
    Error.no_matching_overload "foo" [] p =
      Error.ResolutionError "Arguments passed to foo do not match any of the overloads:" p :=
  rfl

/-- C4: the four CandidateFailure builders substitute their arguments into
their fixed templates, and produce exactly the specified texts on the
spec's four sample inputs. -/
theorem c4_builders (cause : String) (index : Nat) (expected given : String)
    (e g r mn mx : Nat) :
    FunctionResolutionError.parameter_mismatch "expected Int" 2 =
        ⟨"Invalid parameter at position 2: expected Int"⟩ ∧
    FunctionResolutionError.return_mismatch "Int" "String" =
        ⟨"Return type String does not match expected Int"⟩ ∧
    FunctionResolutionError.too_many_args 3 5 =
        ⟨"Too many arguments, expected 3 but got 5"⟩ ∧
    FunctionResolutionError.invalid_arg_count 7 2 4 =
        ⟨"Expected 2-4 parameters, given 7"⟩ ∧
    FunctionResolutionError.parameter_mismatch cause index =
        ⟨"Invalid parameter at position " ++ toString index ++ ": " ++ cause⟩ ∧
    FunctionResolutionError.return_mismatch expected given =
        ⟨"Return type " ++ given ++ " does not match expected " ++ expected⟩ ∧
    FunctionResolutionError.too_many_args e g =
        ⟨"Too many arguments, expected " ++ toString e ++ " but got " ++ toString g⟩ ∧
    FunctionResolutionError.invalid_arg_count r mn mx =
        ⟨"Expected " ++ toString mn ++ "-" ++ toString mx ++ " parameters, given " ++ toString r⟩ :=
  ⟨by decide, by decide, by decide, by decide, rfl, rfl, rfl, rfl⟩

/-- C6: the adapter stores a lower-level I/O or formatting failure
unmodified in the IO (respectively Format) category, and unwrapping
returns a value equal to the original (round-trip). -/
theorem c6_adapter_roundtrip (x : IoFailure) (y : FmtError) :
    Error.unwrapIoError (Error.fromIoError x) = some x ∧
    Error.unwrapFmtError (Error.fromFmtError y) = some y ∧
    Error.fromIoError x = Error.IoError x ∧
    Error.fromFmtError y = Error.FormatError y :=
  ⟨rfl, rfl, rfl, rfl⟩

/-- C7: a Multiple-category diagnostic preserves the exact ordered list of
positions it was constructed from. -/
theorem c7_multiple_preserves_positions (ps : List Pos) (p1 p2 p3 : Pos) :
    (Error.MultipleErrors ps).posList = ps ∧
    (Error.MultipleErrors [p1, p2, p3]).posList = [p1, p2, p3] :=
  ⟨rfl, rfl⟩

/-- C9: the end-of-input constructor wraps an UnexpectedEof I/O failure
whose message text includes (here: equals) the caller-supplied hint. -/
theorem c9_eof_hint (hint : String) :
    Error.eof hint = Error.IoError ⟨IoErrorKind.unexpectedEof, hint⟩ ∧
    ∃ pre post, Error.unwrapIoError (Error.eof hint) =
        some ⟨IoErrorKind.unexpectedEof, pre ++ hint ++ post⟩ := by
  refine ⟨rfl, "", "", ?_⟩
  rw [String.append_empty]
  rfl

/-- C10: each constructor of the not-found and unresolved families returns
a Compile-category diagnostic carrying the supplied position unchanged. -/
theorem c10_notfound_unresolved_compile (n c : String) (p : Pos) :
    ((Error.function_not_found n p).category = Category.compileErr ∧
      (Error.function_not_found n p).posList = [p]) ∧
    ((Error.member_not_found n c p).category = Category.compileErr ∧
      (Error.member_not_found n c p).posList = [p]) ∧
    ((Error.class_not_found n p).category = Category.compileErr ∧
      (Error.class_not_found n p).posList = [p]) ∧
    ((Error.class_is_abstract n p).category = Category.compileErr ∧
      (Error.class_is_abstract n p).posList = [p]) ∧
    ((Error.unresolved_reference n p).category = Category.compileErr ∧
      (Error.unresolved_reference n p).posList = [p]) ∧
    ((Error.unresolved_type n p).category = Category.compileErr ∧
      (Error.unresolved_type n p).posList = [p]) ∧
    ((Error.unresolved_import n p).category = Category.compileErr ∧
      (Error.unresolved_import n p).posList = [p]) ∧
    ((Error.unresolved_module n p).category = Category.compileErr ∧
      (Error.unresolved_module n p).posList = [p]) :=
  ⟨⟨rfl, rfl⟩, ⟨rfl, rfl⟩, ⟨rfl, rfl⟩, ⟨rfl, rfl⟩,
    ⟨rfl, rfl⟩, ⟨rfl, rfl⟩, ⟨rfl, rfl⟩, ⟨rfl, rfl⟩⟩

/-- C2 counterexample: the claim that every category except IO, Format and
Multiple carries exactly one message and one Position is false: the
Decompile variant carries a message but no Position. -/
theorem c2_counterexample :
    ¬ (∀ e : Error, e.category ≠ Category.ioErr → e.category ≠ Category.formatErr →
        e.category ≠ Category.multipleErr →
        e.msgList.length = 1 ∧ e.posList.length = 1) := by
  intro h
  have hd := h (Error.DecompileError "x") (by decide) (by decide) (by decide)
  exact absurd hd.2 (by decide)

/-- C2 amended: the Syntax, Compile, Type and Resolution variants carry
exactly one message and one Position; Decompile and Pool carry exactly one
message and no Position; IO and Format carry neither; Multiple carries no
message and its list of positions. -/
theorem c2_message_position_counts (m : String) (p : Pos) (ps : List Pos)
    (x : IoFailure) (y : FmtError) :
    msgPosCounts (Error.SyntaxError m p) = (1, 1) ∧
    msgPosCounts (Error.CompileError m p) = (1, 1) ∧
    msgPosCounts (Error.TypeError m p) = (1, 1) ∧
    msgPosCounts (Error.ResolutionError m p) = (1, 1) ∧
    msgPosCounts (Error.DecompileError m) = (1, 0) ∧
    msgPosCounts (Error.PoolError m) = (1, 0) ∧
    msgPosCounts (Error.IoError x) = (0, 0) ∧
    msgPosCounts (Error.FormatError y) = (0, 0) ∧
    msgPosCounts (Error.MultipleErrors ps) = (0, ps.length) :=
  ⟨rfl, rfl, rfl, rfl, rfl, rfl, rfl, rfl, rfl⟩

/-- C3 counterexample: the abstract-class constructor does not produce a
category distinct from the class-not-found constructor: both produce the
Compile category. -/
theorem c3_counterexample :
    (Error.class_is_abstract "A" ⟨0⟩).category = (Error.class_not_found "A" ⟨0⟩).category ∧
    (Error.class_is_abstract "A" ⟨0⟩).category = Category.compileErr ∧
    (Error.class_not_found "A" ⟨0⟩).category = Category.compileErr :=
  ⟨rfl, rfl, rfl⟩

/-- C3 amended: both constructors produce Compile-category diagnostics;
the abstract-class case is distinguished only by its own constructor and
message template, which differs from the class-not-found message for every
class name. -/
theorem c3_abstract_same_category_distinct_message (n : String) (p : Pos) :
    (Error.class_is_abstract n p).category = Category.compileErr ∧
    (Error.class_not_found n p).category = Category.compileErr ∧
    Error.class_is_abstract n p ≠ Error.class_not_found n p := by
  refine ⟨rfl, rfl, ?_⟩
  intro h
  injection h with h1 h2
  have hlen := congrArg String.length h1
  rw [String.length_append, String.length_append] at hlen
  have e1 : ("Cannot instantiate abstract class ").length = 34 := rfl
  have e2 : ("Can\x27t find class ").length = 17 := rfl
  rw [e1, e2] at hlen
  omega

/-- C8: every taxonomy constructor is deterministic: two calls with
identical arguments produce value-equal diagnostics. -/
theorem c8_constructors_deterministic
    (s t a b : String) (k : Nat) (es : List FunctionResolutionError) (p q : Pos)
    (hs : s = t) (hp : p = q) :
    Error.eof s = Error.eof t ∧
    Error.function_not_found s p = Error.function_not_found t q ∧
    Error.member_not_found s a p = Error.member_not_found t a q ∧
    Error.class_not_found s p = Error.class_not_found t q ∧
    Error.class_is_abstract s p = Error.class_is_abstract t q ∧
    Error.unresolved_reference s p = Error.unresolved_reference t q ∧
    Error.unresolved_type s p = Error.unresolved_type t q ∧
    Error.unresolved_import s p = Error.unresolved_import t q ∧
    Error.unresolved_module s p = Error.unresolved_module t q ∧
    Error.invalid_annotation_args p = Error.invalid_annotation_args q ∧
    Error.type_annotation_required p = Error.type_annotation_required q ∧
    Error.invalid_context s p = Error.invalid_context t q ∧
    Error.invalid_op s a p = Error.invalid_op t a q ∧
    Error.invalid_arg_count s k p = Error.invalid_arg_count t k q ∧
    Error.void_cannot_be_used p = Error.void_cannot_be_used q ∧
    Error.value_expected s p = Error.value_expected t q ∧
    Error.return_type_mismatch s p = Error.return_type_mismatch t q ∧
    Error.type_error s b p = Error.type_error t b q ∧
    Error.no_matching_overload s es p = Error.no_matching_overload t es q ∧
    Error.invalid_intrinsic s b p = Error.invalid_intrinsic t b q ∧
    Error.expected_static_method s p = Error.expected_static_method t q ∧
    Error.expected_non_static_method s p = Error.expected_non_static_method t q ∧
    Error.no_this_in_static_context p = Error.no_this_in_static_context q ∧
    Error.unsupported s p = Error.unsupported t q ∧
    Error.class_redefinition p = Error.class_redefinition q := by
  subst hs; subst hp
  exact ⟨rfl, rfl, rfl, rfl, rfl, rfl, rfl, rfl, rfl, rfl, rfl, rfl, rfl,
    rfl, rfl, rfl, rfl, rfl, rfl, rfl, rfl, rfl, rfl, rfl, rfl⟩

/-- C8 witness: the determinism theorem applied at concrete inputs, with
both equality hypotheses discharged. -/
theorem c8_constructors_deterministic_witness :
    Error.eof "x" = Error.eof "x" :=
  (c8_constructors_deterministic "x" "x" "a" "b" 1 [] ⟨0⟩ ⟨0⟩ rfl rfl).1

end Redscript
